import Mathlib

/-! Tindify-Auth-Go: the OAuth relay of `auth.go`.

A shallow embedding of the three HTTP handlers of `auth.go` (`handleLogin`,
`handleCallback`, `handleRefresh`) and of the state-token generator
(`randomFloat`, `generateRandomString`), followed by the properties proved
about them.

Conventions of the embedding.

* A Go `string` is a Lean `String`; its bytes are the UTF-8 encoding
  (`utf8Bytes`).  Concatenation and equality agree with Go on these.
* A handler is a function on an explicit `World`: the `http.ResponseWriter`,
  the list of requests handed to `client.Do`, and the lines printed.  A Go
  run-time panic is the result `Result.panic`, which keeps the world reached.
* A response is read where the handler leaves it: the status code and the
  header map sent by the first `WriteHeader`, and the bytes written to the
  body (what an `httptest.ResponseRecorder` records).
* What the handler reads from outside (environment variables, the clock, the
  values `rand.Intn(100)` returns, what `client.Do` answers) is the `Env`.
* The functions of the Go standard library the handlers call
  (`http.Redirect`, `http.SetCookie`, `ResponseWriter.Write`, ...) are
  modelled after the library's source, each with the part left out named in
  its comment.
-/

namespace Tindify

/-! ## Constants of `auth.go` (lines 18-23) -/

def stateKey : String := "spotify_auth_state"

def scope : String :=
  "user-read-private user-read-email user-read-playback-state user-modify-playback-state playlist-modify-public"

def redirectURI : String := "http://localhost:8080/callback"

def possible : String := "ABCDEFGHIJKLMNOPQRSTUVWXYZabcdefghijklmnopqrstuvwxyz0123456789"

/-! ## IEEE-754 binary64 arithmetic on non-negative finite values

Every finite `float64` is an integer multiple of `2^-1074`.  A non-negative
finite `float64` is represented by that integer: the natural `n` stands for
the real `n * 2^-1074`.  Operations round to nearest, ties to even, as Go's
`float64` arithmetic does (`Float64.round_spec` below).  Zero has an encoding
of its own, and each operation answers a zero operand first: the result is
then zero, as rounding would give.  Overflow to infinity and division by
zero are outside the model (the values of `generateRandomString` stay below
62 and the only divisor is 100). -/

namespace Float64

/-- The representation of `1.0`: `2^1074` units of `2^-1074`. -/
def unit : Nat := 1 <<< 1074

/-- One step of the binary search of `bitLen`: with `acc` low bits of `n`
already known to be droppable, drop `k` more if something remains. -/
def bitLenStep (n acc k : Nat) : Nat :=
  if n >>> (acc + k) = 0 then acc else acc + k

/-- Number of binary digits of `n` (0 for 0), for `n < 2^4096`: one more than
the largest `acc` with `n >>> acc` not zero, found by binary search over the
steps 2048, 1024, ..., 1. -/
def bitLen (n : Nat) : Nat :=
  if n = 0 then 0
  else bitLenStep n (bitLenStep n (bitLenStep n (bitLenStep n (bitLenStep n (bitLenStep n
    (bitLenStep n (bitLenStep n (bitLenStep n (bitLenStep n (bitLenStep n (bitLenStep n 0
    2048) 1024) 512) 256) 128) 64) 32) 16) 8) 4) 2) 1 + 1

/-- The `float64` nearest to the real `p / q` units (ties to even): with `t`
the integer part, representable values around `t` are the multiples of
`ulp = 2^(bitLen t - 53)`, which keeps 53 significant bits. -/
def round (p q : Nat) : Nat :=
  let t := p / q
  let ulp := 1 <<< (bitLen t - 53)
  let lower := t / ulp * ulp
  let rem2 := 2 * (p - lower * q)
  if rem2 < ulp * q then lower
  else if ulp * q < rem2 then lower + ulp
  else if (t / ulp) % 2 = 0 then lower else lower + ulp

/-- Conversion `float64(k)` of a non-negative integer. -/
def ofInt (k : Nat) : Nat :=
  if k = 0 then 0 else round (k * unit) 1

/-- Division `x / y` for `y > 0`, correctly rounded. -/
def div (x y : Nat) : Nat :=
  if x = 0 then 0 else round (x * unit) y

/-- Multiplication `x * y`, correctly rounded. -/
def mul (x y : Nat) : Nat :=
  if x = 0 ∨ y = 0 then 0 else round (x * y) unit

/-- The function `math.Floor` (the result is again a `float64`). -/
def floor (x : Nat) : Nat :=
  if x = 0 then 0 else x / unit * unit

/-- Conversion `int64(x)` of a non-negative value: truncation. -/
def toInt64 (x : Nat) : Nat :=
  if x = 0 then 0 else x / unit

end Float64

/-! ## The state-token generator (lines 214-232) -/

/-- Go `randomFloat`, with `randInt` the value `rand.Intn(100)` returned:
`float64(randInt) / 100`.  (The reseeding from the clock decides which value
`rand.Intn` returns; that value is the parameter.) -/
def randomFloat (randInt : Fin 100) : Nat :=
  Float64.div (Float64.ofInt randInt.val) (Float64.ofInt 100)

/-- The index computed in one round of the loop of `generateRandomString`:
`int64(math.Floor(randomFloat() * float64(len(possible))))`. -/
def randomIndex (randInt : Fin 100) : Nat :=
  let possibleLength := possible.length
  let randomIndexFloat := Float64.floor (Float64.mul (randomFloat randInt) (Float64.ofInt possibleLength))
  Float64.toInt64 randomIndexFloat

/-- The loop `for i := 0; i < length; i++` of `generateRandomString`, with
`n` the rounds left, `i` the loop counter and `text` the string built so far;
`rand i` is the value `rand.Intn(100)` returns in round `i`.  The result is
`none` when `possible[randomIndex]` is out of range (a run-time panic in Go). -/
def generateRandomStringLoop (rand : Nat → Fin 100) : Nat → Nat → String → Option String
  | 0, _, text => some text
  | n + 1, i, text =>
    match possible.data.get? (randomIndex (rand i)) with
    | none => none
    | some randomChar => generateRandomStringLoop rand n (i + 1) (text ++ String.singleton randomChar)

/-- Go `generateRandomString(length)`: the loop runs `length` times from the
empty string (not at all for `length <= 0`). -/
def generateRandomString (rand : Nat → Fin 100) (length : Int) : Option String :=
  generateRandomStringLoop rand length.toNat 0 ""

/-- Number of draw values `k` in `0..99` that select index `j` of `possible`. -/
def drawsSelecting (j : Nat) : Nat :=
  ((List.finRange 100).filter (fun k => randomIndex k = j)).length

/-! ## Strings as bytes -/

/-- UTF-8 encoding of one code point, as byte values. -/
def utf8EncodeNat (c : Nat) : List Nat :=
  if c < 0x80 then [c]
  else if c < 0x800 then [0xC0 + c / 64, 0x80 + c % 64]
  else if c < 0x10000 then [0xE0 + c / 4096, 0x80 + c / 64 % 64, 0x80 + c % 64]
  else [0xF0 + c / 262144, 0x80 + c / 4096 % 64, 0x80 + c / 64 % 64, 0x80 + c % 64]

/-- The bytes of a Go string. -/
def utf8Bytes (s : String) : List Nat :=
  s.data.flatMap (fun c => utf8EncodeNat c.toNat)

/-- The alphabet of `base64.StdEncoding`. -/
def base64Alphabet : String := "ABCDEFGHIJKLMNOPQRSTUVWXYZabcdefghijklmnopqrstuvwxyz0123456789+/"

/-- The base64 digit of a 6-bit value. -/
def base64Digit (v : Nat) : Char := (base64Alphabet.data.get? (v % 64)).getD '='

/-- Go `base64.StdEncoding.EncodeToString` on a list of bytes: three bytes
give four digits, a last group of one or two bytes is padded with `=`. -/
def base64Encode : List Nat → List Char
  | [] => []
  | [a] => [base64Digit (a / 4), base64Digit (a % 4 * 16), '=', '=']
  | [a, b] => [base64Digit (a / 4), base64Digit (a % 4 * 16 + b / 16), base64Digit (b % 16 * 4), '=']
  | a :: b :: c :: rest =>
    base64Digit (a / 4) :: base64Digit (a % 4 * 16 + b / 16) ::
      base64Digit (b % 16 * 4 + c / 64) :: base64Digit (c % 64) :: base64Encode rest

/-- Lower-case hexadecimal digit of a value below 16. -/
def hexDigit (v : Nat) : Char := ("0123456789abcdef".data.get? (v % 16)).getD '0'

/-- One character of `hexEscapeNonASCII`: an ASCII character is kept, every
byte of another character becomes `%` and two lower-case hex digits. -/
def hexEscapeChar (c : Char) : List Char :=
  if c.toNat < 0x80 then [c]
  else (utf8EncodeNat c.toNat).flatMap (fun b => ['%', hexDigit (b / 16), hexDigit b])

/-- Go `net/http.hexEscapeNonASCII`: every byte `>= 0x80` of the string is
replaced by `%` followed by `strconv.AppendInt(byte, 16)`. -/
def hexEscapeNonASCII (s : String) : String :=
  String.mk (s.data.flatMap hexEscapeChar)

/-- One character of `htmlEscape`. -/
def htmlEscapeChar (c : Char) : List Char :=
  if c = '&' then "&amp;".data
  else if c = '<' then "&lt;".data
  else if c = '>' then "&gt;".data
  else if c = Char.ofNat 34 then "&#34;".data
  else if c = Char.ofNat 39 then "&#39;".data
  else [c]

/-- Go `net/http.htmlEscape` (the replacer for the five characters
`&`, `<`, `>`, the double quote and the single quote). -/
def htmlEscape (s : String) : String :=
  String.mk (s.data.flatMap htmlEscapeChar)

/-- Go `http.StatusText`, for the status codes this program uses. -/
def StatusText (code : Int) : String :=
  if code = 200 then "OK"
  else if code = 302 then "Found"
  else if code = 303 then "See Other"
  else if code = 403 then "Forbidden"
  else if code = 500 then "Internal Server Error"
  else ""

/-! ## Data model: requests, cookies, responses -/

/-- Go `http.Cookie`, with the fields this program sets.  `expires = none` is
the zero `time.Time`; otherwise nanoseconds since the epoch. -/
structure Cookie where
  name : String
  value : String
  path : String
  expires : Option Int
  maxAge : Int
deriving DecidableEq, Repr

/-- The header map of a response: the `Set-Cookie` lines, kept as the cookies
they serialise, and the other fields as key and value. -/
structure Header where
  fields : List (String × String)
  setCookie : List Cookie
deriving DecidableEq, Repr

/-- Go `Header.Set`: the key gets this single value. -/
def Header.set (h : Header) (key value : String) : Header :=
  { fields := h.fields.filter (fun kv => kv.1 ≠ key) ++ [(key, value)], setCookie := h.setCookie }

/-- Go `h[key]` presence test. -/
def Header.has (h : Header) (key : String) : Bool :=
  h.fields.any (fun kv => kv.1 = key)

/-- The value of a field of a header, if set. -/
def Header.get (h : Header) (key : String) : Option String :=
  (h.fields.find? (fun kv => kv.1 = key)).map Prod.snd

/-- The inbound `*http.Request`, as far as the handlers read it: the method,
the decoded query parameters (`r.URL.Query()`) and the cookies, each a name
and a value. -/
structure Request where
  method : String
  query : List (String × String)
  cookies : List (String × String)
deriving DecidableEq, Repr

/-- Go `r.URL.Query().Get(key)`: the first value of the key, or the empty string. -/
def Request.queryGet (r : Request) (key : String) : String :=
  match r.query.find? (fun kv => kv.1 = key) with
  | some kv => kv.2
  | none => ""

/-- Go `r.Cookie(name)`: the first cookie of that name; `none` is the pair
`(nil, http.ErrNoCookie)`. -/
def Request.cookie (r : Request) (name : String) : Option Cookie :=
  match r.cookies.find? (fun kv => kv.1 = name) with
  | some kv => some { name := kv.1, value := kv.2, path := "", expires := none, maxAge := 0 }
  | none => none

/-- The `http.ResponseWriter`: the header map the handler edits, the status
code and header snapshot sent by the first `WriteHeader` (`none` before), and
the body bytes written. -/
structure ResponseWriter where
  header : Header
  wrote : Option (Int × Header)
  body : String
deriving DecidableEq, Repr

/-- The request handed to `client.Do`. -/
structure ClientRequest where
  method : String
  url : String
  body : String
  header : List (String × String)
deriving DecidableEq, Repr

/-- A value of type `interface{}` produced by `json.Unmarshal`; the contents
of numbers, arrays and objects are never inspected by the program. -/
inductive JSONValue where
  | null
  | bool (b : Bool)
  | number
  | string (s : String)
  | array
  | object
deriving DecidableEq, Repr

/-- The body of an upstream response, as `json.Unmarshal` into a
`map[string]interface{}` sees it: a JSON object (the decoded map, keys
unique), the JSON value `null` (no error, the map stays nil), or anything
else (an error: malformed text, or a JSON value that is not an object). -/
inductive Body where
  | jsonObject (fields : List (String × JSONValue))
  | jsonNull
  | notAnObject
deriving DecidableEq, Repr

/-- The `*http.Response` of the token endpoint. -/
structure Response where
  statusCode : Int
  body : Body
deriving DecidableEq, Repr

/-- The pair `(resp, err)` returned by `client.Do`; `err = true` is `err != nil`. -/
structure DoResult where
  resp : Option Response
  err : Bool
deriving DecidableEq, Repr

/-- What a handler reads from outside the request. -/
structure Env where
  /-- The function `os.Getenv`. -/
  getenv : String → String
  /-- The clock `time.Now()`, in nanoseconds since the epoch. -/
  now : Int
  /-- The value `rand.Intn(100)` returns on the `i`-th call of `randomFloat`. -/
  rand : Nat → Fin 100
  /-- The answer of `client.Do` to a request. -/
  roundTrip : ClientRequest → DoResult

/-- A run-time panic of the Go program. -/
inductive Panic where
  | nilDereference
  | indexOutOfRange
  | jsonError
  | typeAssertion
deriving DecidableEq, Repr

/-- Everything a handler acts on. -/
structure World where
  w : ResponseWriter
  sent : List ClientRequest
  stdout : List String
deriving DecidableEq, Repr

/-- The world before a handler runs: nothing set, written, sent or printed. -/
def World.init : World :=
  { w := { header := { fields := [], setCookie := [] }, wrote := none, body := "" },
    sent := [], stdout := [] }

/-- How a computation ends: normally with a value, or by a panic. -/
inductive Result (α : Type) where
  | ok (a : α) (s : World)
  | panic (p : Panic) (s : World)
deriving DecidableEq, Repr

/-- The world a computation ended in. -/
def Result.world {α : Type} : Result α → World
  | .ok _ s => s
  | .panic _ s => s

/-- Whether a computation ended by a panic. -/
def Result.panicked {α : Type} : Result α → Bool
  | .ok _ _ => false
  | .panic _ _ => true

/-- A computation on the world that may panic. -/
abbrev Handler (α : Type) : Type := World → Result α

/-- Sequencing: a panic ends the computation. -/
def Handler.bind {α β : Type} (m : Handler α) (f : α → Handler β) : Handler β :=
  fun s => match m s with
    | .ok a s1 => f a s1
    | .panic p s1 => .panic p s1

instance : Monad Handler where
  pure a := fun s => .ok a s
  bind := Handler.bind

/-- A run-time panic. -/
def throwPanic {α : Type} (p : Panic) : Handler α := fun s => .panic p s

/-- Go `fmt.Println` of one string. -/
def Println (line : String) : Handler Unit :=
  fun s => .ok () { w := s.w, sent := s.sent, stdout := s.stdout ++ [line] }

/-- Dereference of a pointer: a nil pointer panics. -/
def deref {α : Type} : Option α → Handler α
  | some a => pure a
  | none => throwPanic .nilDereference

/-! ## The library calls of the handlers -/

/-- An action on the response writer alone. -/
def onWriter (f : ResponseWriter → ResponseWriter) : Handler Unit :=
  fun s => .ok () { w := f s.w, sent := s.sent, stdout := s.stdout }

/-- Go `w.Header().Set(key, value)`. -/
def headerSet (key value : String) : Handler Unit :=
  onWriter (fun w => { header := w.header.set key value, wrote := w.wrote, body := w.body })

/-- Go `http.SetCookie(w, cookie)`: one more `Set-Cookie` line.  (The library
drops a cookie whose name is not a valid token and strips invalid bytes from
the value; `stateKey` is a valid name and the values set here are
alphanumeric or empty.) -/
def SetCookie (cookie : Cookie) : Handler Unit :=
  onWriter (fun w =>
    { header := { fields := w.header.fields, setCookie := w.header.setCookie ++ [cookie] },
      wrote := w.wrote, body := w.body })

/-- Go `w.WriteHeader(code)`: the first call sends the status code with the
header map as it is then; a later call is ignored (the library only logs it). -/
def WriteHeader (code : Int) : Handler Unit :=
  onWriter (fun w =>
    match w.wrote with
    | some _ => w
    | none => { header := w.header, wrote := some (code, w.header), body := w.body })

/-- Go `w.Write(data)`: sends status 200 first if no status was sent, then
appends the bytes to the body. -/
def Write (data : String) : Handler Unit := do
  WriteHeader 200
  onWriter (fun w => { header := w.header, wrote := w.wrote, body := w.body ++ data })

/-- The double quote, as a string. -/
def dquote : String := String.singleton (Char.ofNat 34)

/-- Go `http.Redirect(w, r, url, code)` for a URL with scheme and host (all
URLs of this program are such, so the rewriting of relative paths is not
entered): sets `Location` to the hex-escaped URL, sets `Content-Type` for GET
and HEAD unless one is set, sends the status code, and for GET writes a short
HTML body with `fmt.Fprintln`. -/
def Redirect (r : Request) (url : String) (code : Int) : Handler Unit := do
  let hadCT ← (fun s => Result.ok (s.w.header.has "Content-Type") s : Handler Bool)
  headerSet "Location" (hexEscapeNonASCII url)
  if !hadCT && (r.method == "GET" || r.method == "HEAD") then
    headerSet "Content-Type" "text/html; charset=utf-8"
  WriteHeader code
  if !hadCT && r.method == "GET" then
    let body := "<a href=" ++ dquote ++ htmlEscape url ++ dquote ++ ">" ++ StatusText code ++ "</a>.\n"
    Write (body ++ "\n")

/-- Go `client.Do(req)`: the request is sent and the environment answers. -/
def clientDo (env : Env) (req : ClientRequest) : Handler DoResult :=
  fun s => .ok (env.roundTrip req) { w := s.w, sent := s.sent ++ [req], stdout := s.stdout }

/-- Go `json.Unmarshal(body, &data)` with `data` a nil `map[string]interface{}`:
the decoded map, or `none` for an error.  A nil map reads like the empty one. -/
def jsonUnmarshal : Body → Option (List (String × JSONValue))
  | .jsonObject fields => some fields
  | .jsonNull => some []
  | .notAnObject => none

/-- Go `data[key]` on a `map[string]interface{}`: `none` is the nil interface. -/
def mapIndex (data : List (String × JSONValue)) (key : String) : Option JSONValue :=
  (data.find? (fun kv => kv.1 = key)).map Prod.snd

/-- Go type assertion `v.(string)`: panics unless `v` holds a string. -/
def assertString : Option JSONValue → Handler String
  | some (.string s) => pure s
  | _ => throwPanic .typeAssertion

/-- The value of the `Authorization` header both exchanges send. -/
def basicAuth (clientID clientSecret : String) : String :=
  "Basic " ++ String.mk (base64Encode (utf8Bytes (clientID ++ ":" ++ clientSecret)))

/-- The request built by `http.NewRequest("POST", tokenURL, body)` and the
three `req.Header.Add` calls. -/
def tokenRequest (clientID clientSecret formQuery : String) : ClientRequest :=
  { method := "POST",
    url := "https://accounts.spotify.com/api/token",
    body := formQuery,
    header := [("Authorization", basicAuth clientID clientSecret),
               ("Content-Type", "application/x-www-form-urlencoded"),
               ("Accept", "application/json")] }

/-! ## The handlers -/

/-- Go `enableCORS` (lines 234-236). -/
def enableCORS : Handler Unit :=
  headerSet "Access-Control-Allow-Origin" "*"

/-- Go `handleLogin` (lines 50-83). -/
def handleLogin (env : Env) (r : Request) : Handler Unit := do
  if r.method == "GET" then
    let clientID := env.getenv "CLIENT_ID"
    Println "entered login route"
    let state ← match generateRandomString env.rand 16 with
      | some text => (pure text : Handler String)
      | none => throwPanic .indexOutOfRange
    let expiration := env.now + 365 * 24 * 3600000000000
    let cookie : Cookie :=
      { name := stateKey, value := state, path := "/", expires := some expiration, maxAge := 0 }
    SetCookie cookie
    enableCORS
    let queryString := "response_type=code&client_id=" ++ clientID ++ "&scope=" ++ scope ++
      "&redirect_uri=" ++ redirectURI ++ "&state=" ++ state
    let url := "https://accounts.spotify.com/authorize?" ++ queryString
    Redirect r url 302
  else
    Redirect r "http://localhost:8081" 403

/-- Go `handleCallback` (lines 85-161). -/
def handleCallback (env : Env) (r : Request) : Handler Unit := do
  if r.method == "GET" then
    let clientID := env.getenv "CLIENT_ID"
    let clientSecret := env.getenv "CLIENT_SECRET"
    let code := r.queryGet "code"
    let state := r.queryGet "state"
    let cookie := r.cookie stateKey
    if cookie.isNone then
      Println "Unable to retrieve cookie from header"
    let storedState := (← deref cookie).value
    if state == "" || state != storedState then
      Redirect r "http://localhost:8081#error=state_mismatch" 500
    else
      let cookie : Cookie :=
        { name := stateKey, value := "", path := "", expires := none, maxAge := -1 }
      SetCookie cookie
      let formQuery := "code=" ++ code ++ "&redirect_uri=" ++ redirectURI ++
        "&grant_type=authorization_code"
      let req := tokenRequest clientID clientSecret formQuery
      let res ← clientDo env req
      let failed ← if res.err then (pure true : Handler Bool) else do
        let resp ← deref res.resp
        pure (resp.statusCode != 200)
      if failed then
        Println "Unable to POST or invalid token"
        Redirect r "http://localhost:8081/#error=invalid_token" 500
      let resp ← deref res.resp
      let body := resp.body
      let data ← match jsonUnmarshal body with
        | some data => (pure data : Handler (List (String × JSONValue)))
        | none => throwPanic .jsonError
      let accessToken ← assertString (mapIndex data "access_token")
      let refreshToken ← assertString (mapIndex data "refresh_token")
      let urlWithTokens := "http://localhost:8081/#access_token=" ++ accessToken ++
        "&refresh_token=" ++ refreshToken
      Redirect r urlWithTokens 303
  else
    Redirect r "http://localhost:8081" 403

/-- Go `handleRefresh` (lines 163-212). -/
def handleRefresh (env : Env) (r : Request) : Handler Unit := do
  if r.method == "GET" then
    Println "entered the refresh route"
    let clientID := env.getenv "CLIENT_ID"
    let clientSecret := env.getenv "CLIENT_SECRET"
    let refreshToken := r.queryGet "refresh_token"
    let formQuery := "grant_type=refresh_token&refresh_token=" ++ refreshToken
    let req := tokenRequest clientID clientSecret formQuery
    let res ← clientDo env req
    let succeeded ← if res.err then (pure false : Handler Bool) else do
      let resp ← deref res.resp
      pure (resp.statusCode == 200)
    if succeeded then
      Println "new token on its way"
      let resp ← deref res.resp
      let body := resp.body
      let data ← match jsonUnmarshal body with
        | some data => (pure data : Handler (List (String × JSONValue)))
        | none => throwPanic .jsonError
      let accessToken ← assertString (mapIndex data "access_token")
      Write ("\x7baccess_token:" ++ accessToken ++ "\x7d")
    let _ ← deref res.resp
  else
    Redirect r "http://localhost:8081" 403

/-- The response the server completes after a handler returned: if the
handler sent no status, `net/http` sends status 200 with the header map as
the handler left it. -/
def finishRequest (w : ResponseWriter) : ResponseWriter :=
  match w.wrote with
  | some _ => w
  | none => { header := w.header, wrote := some (200, w.header), body := w.body }

/-! ## Reading a response -/

/-- The status code sent, if any. -/
def ResponseWriter.status (w : ResponseWriter) : Option Int :=
  w.wrote.map Prod.fst

/-- The `Location` header sent, if any. -/
def ResponseWriter.location (w : ResponseWriter) : Option String :=
  w.wrote.bind (fun sent => sent.2.get "Location")

/-- The `Set-Cookie` lines sent. -/
def ResponseWriter.cookiesSent (w : ResponseWriter) : List Cookie :=
  match w.wrote with
  | some sent => sent.2.setCookie
  | none => []

/-- The outcome of a request that is refused: the handler returned, the
response is a redirect to `http://localhost:8081` with status 403, without
cookie and without body, and nothing was sent to the provider or printed. -/
def isForbiddenRedirect (res : Result Unit) : Prop :=
  ∃ s : World, res = Result.ok () s ∧
    s.w.status = some 403 ∧
    s.w.location = some "http://localhost:8081" ∧
    s.w.cookiesSent = [] ∧ s.w.header.setCookie = [] ∧
    s.w.body = "" ∧
    s.sent = [] ∧ s.stdout = []

/-! ## Reading a redirect URL -/

/-- An unreserved URL character (RFC 3986, section 2.3): a letter, a digit,
or one of `-`, `.`, `_`, `~`. -/
def isUnreserved (c : Char) : Prop :=
  (65 ≤ c.toNat ∧ c.toNat ≤ 90) ∨ (97 ≤ c.toNat ∧ c.toNat ≤ 122) ∨ (48 ≤ c.toNat ∧ c.toNat ≤ 57) ∨
    c.toNat = 45 ∨ c.toNat = 46 ∨ c.toNat = 95 ∨ c.toNat = 126

instance (c : Char) : Decidable (isUnreserved c) := by
  unfold isUnreserved
  infer_instance

/-- The pieces of a list of characters between the occurrences of `sep`. -/
def splitChars (sep : Char) : List Char → List (List Char)
  | [] => [[]]
  | c :: cs =>
    if c = sep then [] :: splitChars sep cs
    else match splitChars sep cs with
      | [] => [[c]]
      | piece :: pieces => (c :: piece) :: pieces

/-- The raw query of a URL: what stands after the first `?`, up to the first `#`. -/
def rawQuery (url : String) : List Char :=
  ((url.data.dropWhile (fun c => c != '?')).drop 1).takeWhile (fun c => c != '#')

/-- A `key=value` piece, cut at its first `=`. -/
def keyValue (piece : List Char) : String × String :=
  (String.mk (piece.takeWhile (fun c => c != '=')),
   String.mk ((piece.dropWhile (fun c => c != '=')).drop 1))

/-- The query parameters of a URL as written in it (no percent-decoding):
the raw query cut at every `&`, each piece cut at its first `=`. -/
def queryParameters (url : String) : List (String × String) :=
  (splitChars '&' (rawQuery url)).map keyValue

/-! ## Concrete inputs -/

/-- A sequence of draws: `11, 48, 85, 22, ...`. -/
def sampleRand : Nat → Fin 100 :=
  fun i => ⟨(i * 37 + 11) % 100, Nat.mod_lt _ (Nat.succ_pos 99)⟩

/-- An environment whose token endpoint always gives the same answer. -/
def sampleEnv (answer : DoResult) : Env :=
  { getenv := fun key => if key = "CLIENT_ID" then "id" else "secret",
    now := 0,
    rand := sampleRand,
    roundTrip := fun _ => answer }

/-- The answer of a failed transport: no response, an error. -/
def transportError : DoResult := { resp := none, err := true }

/-- A successful answer with the two tokens `access` and `refresh`. -/
def tokenAnswer (access refresh : String) : DoResult :=
  { resp := some { statusCode := 200,
                   body := Body.jsonObject [("access_token", JSONValue.string access),
                                            ("refresh_token", JSONValue.string refresh)] },
    err := false }

/-- A GET callback whose `state` parameter equals the cookie value `abc`. -/
def sampleCallback : Request :=
  { method := "GET", query := [("code", "c"), ("state", "abc")], cookies := [(stateKey, "abc")] }

/-- A POST request that carries the state cookie. -/
def samplePost : Request :=
  { method := "POST", query := [("code", "c"), ("state", "abc")], cookies := [(stateKey, "abc")] }

/-- A GET request for a refresh with the token `rt`. -/
def sampleRefresh : Request :=
  { method := "GET", query := [("refresh_token", "rt")], cookies := [] }

/-! ## The float model -/

namespace Float64

/-- One step of the search keeps `n >>> acc` non-zero and halves the window
above it. -/
theorem bitLenStep_spec (n k k2 acc : Nat) (hk2 : k2 = k + k)
    (h : n >>> acc ≠ 0 ∧ n >>> (acc + k2) = 0) :
    n >>> (bitLenStep n acc k) ≠ 0 ∧ n >>> (bitLenStep n acc k + k) = 0 := by
  obtain ⟨hne, hz⟩ := h
  unfold bitLenStep
  by_cases hk : n >>> (acc + k) = 0
  · rw [if_pos hk]
    exact ⟨hne, hk⟩
  · rw [if_neg hk]
    refine ⟨hk, ?_⟩
    have e : acc + k + k = acc + k2 := by omega
    rw [e]
    exact hz

set_option exponentiation.threshold 4096 in
/-- The bit length is right: `2^(bitLen n - 1) <= n < 2^(bitLen n)`. -/
theorem bitLen_spec (n : Nat) (hn : n ≠ 0) (hlt : n < 2 ^ 4096) :
    2 ^ (bitLen n - 1) ≤ n ∧ n < 2 ^ bitLen n := by
  have h0 : n >>> 0 ≠ 0 ∧ n >>> (0 + 4096) = 0 := by
    refine ⟨by simpa using hn, ?_⟩
    have e : 0 + 4096 = 4096 := by norm_num
    rw [e, Nat.shiftRight_eq_div_pow]
    exact Nat.div_eq_of_lt hlt
  have h1 := bitLenStep_spec n 2048 4096 _ rfl h0
  have h2 := bitLenStep_spec n 1024 2048 _ rfl h1
  have h3 := bitLenStep_spec n 512 1024 _ rfl h2
  have h4 := bitLenStep_spec n 256 512 _ rfl h3
  have h5 := bitLenStep_spec n 128 256 _ rfl h4
  have h6 := bitLenStep_spec n 64 128 _ rfl h5
  have h7 := bitLenStep_spec n 32 64 _ rfl h6
  have h8 := bitLenStep_spec n 16 32 _ rfl h7
  have h9 := bitLenStep_spec n 8 16 _ rfl h8
  have h10 := bitLenStep_spec n 4 8 _ rfl h9
  have h11 := bitLenStep_spec n 2 4 _ rfl h10
  have h12 := bitLenStep_spec n 1 2 _ rfl h11
  have hb : bitLen n = bitLenStep n (bitLenStep n (bitLenStep n (bitLenStep n (bitLenStep n
      (bitLenStep n (bitLenStep n (bitLenStep n (bitLenStep n (bitLenStep n (bitLenStep n
      (bitLenStep n 0 2048) 1024) 512) 256) 128) 64) 32) 16) 8) 4) 2) 1 + 1 := by
    unfold bitLen
    rw [if_neg hn]
  rw [hb, Nat.add_sub_cancel]
  generalize bitLenStep n (bitLenStep n (bitLenStep n (bitLenStep n (bitLenStep n (bitLenStep n
        (bitLenStep n (bitLenStep n (bitLenStep n (bitLenStep n (bitLenStep n (bitLenStep n 0
        2048) 1024) 512) 256) 128) 64) 32) 16) 8) 4) 2) 1 = acc at h12
  obtain ⟨hne, hz⟩ := h12
  clear hlt h0
  rw [Nat.shiftRight_eq_div_pow] at hne hz
  constructor
  · by_contra hc
    exact hne ((Nat.div_eq_zero_iff (Nat.two_pow_pos _)).mpr (Nat.lt_of_not_le hc))
  · exact (Nat.div_eq_zero_iff (Nat.two_pow_pos _)).mp hz

/-- The rounding is to nearest, ties to even: with `ulp = 2^(bitLen (p / q) - 53)`
the spacing of the doubles around `p / q`, the result is a multiple of `ulp`
at distance at most `ulp / 2` from `p / q`, and an even multiple when the
distance is exactly `ulp / 2`. -/
theorem round_spec (p q : Nat) (hq : 0 < q) :
    1 <<< (bitLen (p / q) - 53) ∣ round p q ∧
    2 * (p - round p q * q) ≤ 1 <<< (bitLen (p / q) - 53) * q ∧
    2 * (round p q * q - p) ≤ 1 <<< (bitLen (p / q) - 53) * q ∧
    ((2 * (p - round p q * q) = 1 <<< (bitLen (p / q) - 53) * q ∨
      2 * (round p q * q - p) = 1 <<< (bitLen (p / q) - 53) * q) →
        round p q / (1 <<< (bitLen (p / q) - 53)) % 2 = 0) := by
  have hu : 0 < 1 <<< (bitLen (p / q) - 53) := by
    rw [Nat.one_shiftLeft]
    exact Nat.two_pow_pos _
  have hround : round p q =
      if 2 * (p - p / q / (1 <<< (bitLen (p / q) - 53)) * (1 <<< (bitLen (p / q) - 53)) * q) <
          1 <<< (bitLen (p / q) - 53) * q then
        p / q / (1 <<< (bitLen (p / q) - 53)) * (1 <<< (bitLen (p / q) - 53))
      else if 1 <<< (bitLen (p / q) - 53) * q <
          2 * (p - p / q / (1 <<< (bitLen (p / q) - 53)) * (1 <<< (bitLen (p / q) - 53)) * q) then
        p / q / (1 <<< (bitLen (p / q) - 53)) * (1 <<< (bitLen (p / q) - 53)) +
          1 <<< (bitLen (p / q) - 53)
      else if (p / q / (1 <<< (bitLen (p / q) - 53))) % 2 = 0 then
        p / q / (1 <<< (bitLen (p / q) - 53)) * (1 <<< (bitLen (p / q) - 53))
      else p / q / (1 <<< (bitLen (p / q) - 53)) * (1 <<< (bitLen (p / q) - 53)) +
          1 <<< (bitLen (p / q) - 53) := by
    unfold round
    rfl
  generalize 1 <<< (bitLen (p / q) - 53) = u at hu hround ⊢
  generalize round p q = r at hround ⊢
  have h1 : p / q * q ≤ p := Nat.div_mul_le_self p q
  have h2 : p < p / q * q + q := Nat.lt_div_mul_add hq
  generalize p / q = t at hround h1 h2
  have h3 : t / u * u ≤ t := Nat.div_mul_le_self t u
  have h4 : t < t / u * u + u := Nat.lt_div_mul_add hu
  have hd1 : t / u * u / u = t / u := Nat.mul_div_cancel _ hu
  have hd2 : (t / u * u + u) / u = t / u + 1 := by
    rw [Nat.add_div_right _ hu, hd1]
  have hdvd1 : u ∣ t / u * u := Nat.dvd_mul_left u (t / u)
  have hdvd2 : u ∣ t / u * u + u := Nat.dvd_add hdvd1 (Nat.dvd_refl u)
  have hA1 : t / u * u * q ≤ t * q := Nat.mul_le_mul_right q h3
  have hA2 : (t + 1) * q ≤ (t / u * u + u) * q := Nat.mul_le_mul_right q h4
  rw [Nat.add_mul, Nat.add_mul, Nat.one_mul] at hA2
  have hmul : (t / u * u + u) * q = t / u * u * q + u * q := Nat.add_mul _ _ _
  split_ifs at hround with c1 c2 c3 <;> subst hround
  · refine ⟨hdvd1, by omega, by omega, ?_⟩
    intro h
    omega
  · refine ⟨hdvd2, by omega, by omega, ?_⟩
    intro h
    omega
  · refine ⟨hdvd1, by omega, by omega, ?_⟩
    intro _
    rw [hd1]
    exact c3
  · refine ⟨hdvd2, by omega, by omega, ?_⟩
    intro _
    rw [hd2]
    omega

/-- Rounding zero gives zero: the zero answers of the operations are what
rounding would give. -/
theorem round_zero (q : Nat) (hq : 0 < q) : round 0 q = 0 := by
  have hb : bitLen 0 = 0 := rfl
  have hu : (1 : Nat) <<< (0 - 53) = 1 := rfl
  unfold round
  simp only [Nat.zero_div, hb, hu, Nat.zero_mul, Nat.sub_zero, Nat.mul_zero, Nat.one_mul, hq,
    ↓reduceIte]

end Float64

/-! ## The float model on known values -/

/-- The double nearest to `1/10` is `3602879701896397 * 2^-55`. -/
theorem Float64.one_tenth :
    Float64.div (Float64.ofInt 1) (Float64.ofInt 10) = 3602879701896397 <<< 1019 := by
  decide!

/-- In doubles `0.57 * 100`, `0.29 * 100` and `0.58 * 100` fall just below
the integer, as they do in Go. -/
theorem Float64.below_integer :
    Float64.toInt64 (Float64.floor (Float64.mul (Float64.div (Float64.ofInt 57) (Float64.ofInt 100))
      (Float64.ofInt 100))) = 56 ∧
    Float64.toInt64 (Float64.floor (Float64.mul (Float64.div (Float64.ofInt 29) (Float64.ofInt 100))
      (Float64.ofInt 100))) = 28 ∧
    Float64.toInt64 (Float64.floor (Float64.mul (Float64.div (Float64.ofInt 58) (Float64.ofInt 100))
      (Float64.ofInt 100))) = 57 := by
  decide!

/-! ## The state-token generator -/

/-- For every draw the float computation gives the integer part of `k * 62 / 100`. -/
theorem randomIndex_eq (k : Fin 100) : randomIndex k = k.val * 62 / 100 := by
  revert k
  decide!

/-- Every index computed is inside `possible`. -/
theorem randomIndex_lt (k : Fin 100) : randomIndex k < possible.length := by
  revert k
  decide!

/-- The alphabet consists of letters and digits. -/
theorem possible_alphanumeric : ∀ c ∈ possible.data, c.isAlphanum = true := by
  decide

/-- An index inside `possible` reads a character of `possible`. -/
theorem possible_get (j : Nat) (hj : j < possible.length) :
    ∃ ch : Char, possible.data.get? j = some ch ∧ ch ∈ possible.data := by
  have hlt : j < possible.data.length := hj
  exact ⟨possible.data.get ⟨j, hlt⟩, List.get?_eq_get hlt, List.get_mem _ _ _⟩

/-- The loop runs to its end: `n` rounds add `n` characters of `possible`. -/
theorem generateRandomStringLoop_spec (rand : Nat → Fin 100) (n : Nat) :
    ∀ (i : Nat) (text : String), ∃ s : String,
      generateRandomStringLoop rand n i text = some s ∧
      s.length = text.length + n ∧
      ∀ c ∈ s.data, c ∈ text.data ∨ c ∈ possible.data := by
  induction n with
  | zero =>
    intro i text
    exact ⟨text, rfl, rfl, fun c hc => Or.inl hc⟩
  | succ n ih =>
    intro i text
    obtain ⟨ch, hget, hch⟩ := possible_get (randomIndex (rand i)) (randomIndex_lt (rand i))
    obtain ⟨s, hs, hlen, hmem⟩ := ih (i + 1) (text ++ String.singleton ch)
    refine ⟨s, ?_, ?_, ?_⟩
    · rw [generateRandomStringLoop, hget]
      exact hs
    · rw [hlen, String.length_append, String.length_singleton]
      omega
    · intro c hc
      rcases hmem c hc with h | h
      · rw [String.data_append, List.mem_append] at h
        rcases h with h | h
        · exact Or.inl h
        · right
          have hc2 : c = ch := by simpa [String.singleton] using h
          rw [hc2]
          exact hch
      · exact Or.inr h

/-- A string of ASCII characters has as many bytes as characters. -/
theorem utf8Bytes_length_ascii (s : String) (h : ∀ c ∈ s.data, c.toNat < 0x80) :
    (utf8Bytes s).length = s.length := by
  have key : ∀ l : List Char, (∀ c ∈ l, c.toNat < 0x80) →
      (l.flatMap (fun c => utf8EncodeNat c.toNat)).length = l.length := by
    intro l
    induction l with
    | nil => intro _; rfl
    | cons a t ih =>
      intro hl
      have ha : a.toNat < 0x80 := hl a (List.mem_cons_self a t)
      have ht := ih (fun c hc => hl c (List.mem_cons_of_mem a hc))
      have hone : (utf8EncodeNat a.toNat).length = 1 := by
        unfold utf8EncodeNat
        rw [if_pos ha]
        rfl
      rw [List.flatMap_cons, List.length_append, ht, hone, List.length_cons]
      omega
  exact key s.data h

/-- The characters of `possible` are ASCII. -/
theorem possible_lt_128 : ∀ c ∈ possible.data, c.toNat < 0x80 := by
  decide

/-- The token of a given length exists and is made of characters of `possible`. -/
theorem generateRandomString_spec (rand : Nat → Fin 100) (length : Int) :
    ∃ s : String, generateRandomString rand length = some s ∧
      s.length = length.toNat ∧ ∀ c ∈ s.data, c ∈ possible.data := by
  obtain ⟨s, hs, hlen, hmem⟩ := generateRandomStringLoop_spec rand length.toNat 0 ""
  refine ⟨s, hs, ?_, ?_⟩
  · rw [hlen]
    simp
  · intro c hc
    rcases hmem c hc with h | h
    · simp at h
    · exact h

/-- C5: for every length `L >= 0` and every sequence of draws in `0..99`, no
index computed leaves the 62-character constant `possible`, and
`generateRandomString` returns a string of exactly `L` characters (and `L`
bytes), each a character of `possible`, hence a letter or a digit. -/
theorem C5_generateRandomString_length_alphabet (rand : Nat → Fin 100) (L : Int) (hL : 0 ≤ L) :
    (∀ k : Fin 100, randomIndex k < possible.length) ∧
    possible.length = 62 ∧
    ∃ s : String, generateRandomString rand L = some s ∧
      (s.length : Int) = L ∧ ((utf8Bytes s).length : Int) = L ∧
      ∀ c ∈ s.data, c ∈ possible.data ∧ c.isAlphanum = true := by
  refine ⟨randomIndex_lt, by decide, ?_⟩
  obtain ⟨s, hs, hlen, hmem⟩ := generateRandomString_spec rand L
  have hchars : (s.length : Int) = L := by
    rw [hlen]
    exact Int.toNat_of_nonneg hL
  refine ⟨s, hs, hchars, ?_, ?_⟩
  · rw [utf8Bytes_length_ascii s (fun c hc => possible_lt_128 c (hmem c hc))]
    exact hchars
  · intro c hc
    exact ⟨hmem c hc, possible_alphanumeric c (hmem c hc)⟩

/-- C5 at length 16 with the draws of `sampleRand`. -/
theorem C5_generateRandomString_length_alphabet_witness :
    (∀ k : Fin 100, randomIndex k < possible.length) ∧
    possible.length = 62 ∧
    ∃ s : String, generateRandomString sampleRand 16 = some s ∧
      (s.length : Int) = 16 ∧ ((utf8Bytes s).length : Int) = 16 ∧
      ∀ c ∈ s.data, c ∈ possible.data ∧ c.isAlphanum = true :=
  C5_generateRandomString_length_alphabet sampleRand 16 (by decide)

/-- The token generated from the draws of `sampleRand`. -/
theorem generateRandomString_sample :
    generateRandomString sampleRand 16 = some "Gd0Nk7UrEbyLi5Ro" := by
  decide!

/-- C9 (counterexample): the draws are not spread evenly over the alphabet:
index 0 (`A`) is selected by two draw values (0 and 1), index 2 (`C`) by one
(the draw 4). -/
theorem C9_not_uniform : drawsSelecting 0 = 2 ∧ drawsSelecting 2 = 1 := by
  decide!

/-- C9 (amended): every one of the 62 alphabet characters is selected by one
or by two of the 100 draw values; 38 characters by two and 24 by one. -/
theorem C9_one_or_two_draws :
    (∀ j : Fin 62, drawsSelecting j.val = 1 ∨ drawsSelecting j.val = 2) ∧
    ((List.finRange 62).filter (fun j => drawsSelecting j.val = 2)).length = 38 ∧
    ((List.finRange 62).filter (fun j => drawsSelecting j.val = 1)).length = 24 := by
  decide!

/-! ## Lemmas on the library calls -/

/-- The redirect of a GET request on a writer that has sent nothing and has
no `Content-Type`: both headers set, the status sent, the HTML body written. -/
theorem Redirect_get (r : Request) (hget : r.method = "GET") (url : String) (code : Int) (s : World)
    (hct : s.w.header.has "Content-Type" = false) (hw : s.w.wrote = none) :
    Redirect r url code s = Result.ok ()
      { w := { header := (s.w.header.set "Location" (hexEscapeNonASCII url)).set
                 "Content-Type" "text/html; charset=utf-8",
               wrote := some (code, (s.w.header.set "Location" (hexEscapeNonASCII url)).set
                 "Content-Type" "text/html; charset=utf-8"),
               body := s.w.body ++ ("<a href=" ++ dquote ++ htmlEscape url ++ dquote ++ ">" ++
                 StatusText code ++ "</a>.\n" ++ "\n") },
        sent := s.sent, stdout := s.stdout } := by
  simp [Redirect, hget, hct, hw, bind, Handler.bind, headerSet, onWriter, WriteHeader, Write]

/-- The redirect of a request that is not a GET: no body is written, and
`Content-Type` is set for HEAD only. -/
theorem Redirect_notGet (r : Request) (hget : r.method ≠ "GET") (url : String) (code : Int)
    (s : World) (hct : s.w.header.has "Content-Type" = false) (hw : s.w.wrote = none) :
    Redirect r url code s = Result.ok ()
      { w := { header := if r.method = "HEAD" then
                   (s.w.header.set "Location" (hexEscapeNonASCII url)).set
                     "Content-Type" "text/html; charset=utf-8"
                 else s.w.header.set "Location" (hexEscapeNonASCII url),
               wrote := some (code, if r.method = "HEAD" then
                   (s.w.header.set "Location" (hexEscapeNonASCII url)).set
                     "Content-Type" "text/html; charset=utf-8"
                 else s.w.header.set "Location" (hexEscapeNonASCII url)),
               body := s.w.body },
        sent := s.sent, stdout := s.stdout } := by
  by_cases hh : r.method = "HEAD" <;>
  simp [Redirect, hget, hct, hw, bind, Handler.bind, headerSet, onWriter, WriteHeader, Write, hh,
    pure]

/-- A string of ASCII characters is left as it is by `hexEscapeNonASCII`. -/
theorem hexEscapeNonASCII_ascii (s : String) (h : ∀ c ∈ s.data, c.toNat < 0x80) :
    hexEscapeNonASCII s = s := by
  have key : ∀ l : List Char, (∀ c ∈ l, c.toNat < 0x80) → l.flatMap hexEscapeChar = l := by
    intro l
    induction l with
    | nil => intro _; rfl
    | cons a t ih =>
      intro hl
      have ha : a.toNat < 0x80 := hl a (List.mem_cons_self a t)
      have ht : t.flatMap hexEscapeChar = t := ih (fun c hc => hl c (List.mem_cons_of_mem a hc))
      simp [List.flatMap_cons, hexEscapeChar, ha, ht]
  unfold hexEscapeNonASCII
  rw [key s.data h]

/-! ## The callback -/

/-- C1: a GET callback that carries the state cookie, with a `state` parameter
that is empty or differs from the cookie value, returns normally with the
redirect to `http://localhost:8081#error=state_mismatch`, status 500; nothing
is sent to the token endpoint and the response has no `Set-Cookie` line. -/
theorem C1_state_mismatch_redirect (env : Env) (r : Request) (c : Cookie)
    (hget : r.method = "GET") (hcookie : r.cookie stateKey = some c)
    (hstate : r.queryGet "state" = "" ∨ r.queryGet "state" ≠ c.value) :
    ∃ s : World, handleCallback env r World.init = Result.ok () s ∧
      s.w.status = some 500 ∧
      s.w.location = some "http://localhost:8081#error=state_mismatch" ∧
      s.sent = [] ∧
      s.w.cookiesSent = [] ∧ s.w.header.setCookie = [] := by
  have h : handleCallback env r World.init =
      Redirect r "http://localhost:8081#error=state_mismatch" 500 World.init := by
    simp [handleCallback, hget, hcookie, bind, Handler.bind, deref, pure, hstate]
  rw [Redirect_get r hget _ _ _ (by decide) (by decide)] at h
  refine ⟨_, h, ?_⟩
  decide

/-- C1 at a concrete request: cookie value `abc`, `state` parameter `xyz`. -/
theorem C1_state_mismatch_redirect_witness :
    ∃ s : World, handleCallback (sampleEnv transportError)
        { method := "GET", query := [("code", "c"), ("state", "xyz")],
          cookies := [(stateKey, "abc")] } World.init = Result.ok () s ∧
      s.w.status = some 500 ∧
      s.w.location = some "http://localhost:8081#error=state_mismatch" ∧
      s.sent = [] ∧
      s.w.cookiesSent = [] ∧ s.w.header.setCookie = [] :=
  C1_state_mismatch_redirect (sampleEnv transportError) _
    { name := stateKey, value := "abc", path := "", expires := none, maxAge := 0 }
    (by decide) (by decide) (by decide)

/-- C2 (the code on its failing inputs): a GET callback without the state
cookie prints its message and then panics on `cookie.Value`, a nil pointer
dereference, whatever the `state` parameter; no response is written and
nothing is sent. -/
theorem C2_missing_cookie_panics (env : Env) (r : Request)
    (hget : r.method = "GET") (hcookie : r.cookie stateKey = none) :
    handleCallback env r World.init =
      Result.panic Panic.nilDereference
        { w := World.init.w, sent := [], stdout := ["Unable to retrieve cookie from header"] } := by
  simp [handleCallback, hget, hcookie, bind, Handler.bind, deref, throwPanic, Println, World.init]

/-- C2 at a concrete request without cookies. -/
theorem C2_missing_cookie_panics_witness :
    handleCallback (sampleEnv transportError)
        { method := "GET", query := [("code", "c"), ("state", "abc")], cookies := [] } World.init =
      Result.panic Panic.nilDereference
        { w := World.init.w, sent := [], stdout := ["Unable to retrieve cookie from header"] } :=
  C2_missing_cookie_panics (sampleEnv transportError) _ (by decide) (by decide)

/-- C3 (the code on a failing input): with matching state and a failed
transport the handler sends the `invalid_token` redirect and then goes on to
`resp.Body` with a nil `resp`: it ends in a nil pointer dereference. -/
theorem C3_transport_error_panics :
    ∃ s : World, handleCallback (sampleEnv transportError) sampleCallback World.init =
        Result.panic Panic.nilDereference s ∧
      s.w.status = some 500 ∧
      s.w.location = some "http://localhost:8081/#error=invalid_token" :=
  ⟨_, rfl, by decide⟩

/-- On every GET callback with matching state, a failed transport (no
response, an error) ends in the nil pointer dereference, after the
`invalid_token` redirect was sent. -/
theorem handleCallback_transport_error (env : Env) (r : Request) (c : Cookie)
    (hget : r.method = "GET") (hcookie : r.cookie stateKey = some c)
    (hstate : r.queryGet "state" ≠ "") (hmatch : r.queryGet "state" = c.value)
    (hresp : env.roundTrip (tokenRequest (env.getenv "CLIENT_ID") (env.getenv "CLIENT_SECRET")
        ("code=" ++ r.queryGet "code" ++ "&redirect_uri=" ++ redirectURI ++
          "&grant_type=authorization_code")) = { resp := none, err := true }) :
    ∃ s : World, handleCallback env r World.init = Result.panic Panic.nilDereference s ∧
      s.w.status = some 500 ∧
      s.w.location = some "http://localhost:8081/#error=invalid_token" := by
  have hne : ¬ (c.value = "") := by rw [← hmatch]; exact hstate
  have hR := Redirect_get r hget "http://localhost:8081/#error=invalid_token" 500
    { w := { header := { fields := [],
                         setCookie := [{ name := stateKey, value := "", path := "",
                                         expires := none, maxAge := -1 }] },
             wrote := none, body := "" },
      sent := [tokenRequest (env.getenv "CLIENT_ID") (env.getenv "CLIENT_SECRET")
        ("code=" ++ r.queryGet "code" ++ "&redirect_uri=" ++ redirectURI ++
          "&grant_type=authorization_code")],
      stdout := ["Unable to POST or invalid token"] } rfl rfl
  refine ⟨(Redirect r "http://localhost:8081/#error=invalid_token" 500
    { w := { header := { fields := [],
                         setCookie := [{ name := stateKey, value := "", path := "",
                                         expires := none, maxAge := -1 }] },
             wrote := none, body := "" },
      sent := [tokenRequest (env.getenv "CLIENT_ID") (env.getenv "CLIENT_SECRET")
        ("code=" ++ r.queryGet "code" ++ "&redirect_uri=" ++ redirectURI ++
          "&grant_type=authorization_code")],
      stdout := ["Unable to POST or invalid token"] }).world, ?_, ?_⟩
  · simp [handleCallback, hget, hcookie, bind, Handler.bind, deref, pure, hmatch, hne, hresp,
      clientDo, SetCookie, onWriter, World.init, Println, throwPanic, hR, Result.world]
  · have hloc : hexEscapeNonASCII "http://localhost:8081/#error=invalid_token" =
        "http://localhost:8081/#error=invalid_token" := by decide
    rw [hR]
    simp [Result.world, ResponseWriter.status, ResponseWriter.location, Header.set, Header.get,
      hloc]

/-- After a response with status 400 and an error object the handler sends
the `invalid_token` redirect, then reads and parses the body and panics on
the type assertion of the missing `access_token`. -/
theorem handleCallback_status_400_panics :
    ∃ s : World, handleCallback
        (sampleEnv { resp := some { statusCode := 400,
                                    body := Body.jsonObject [("error", JSONValue.string "invalid_grant")] },
                     err := false })
        sampleCallback World.init = Result.panic Panic.typeAssertion s ∧
      s.w.status = some 500 ∧
      s.w.location = some "http://localhost:8081/#error=invalid_token" :=
  ⟨_, rfl, by decide⟩

/-- After a response with status 400 that carries both tokens the handler
sends the `invalid_token` redirect and then calls `http.Redirect` a second
time: the header map ends with the token URL as `Location`. -/
theorem handleCallback_status_400_second_redirect :
    ∃ s : World, handleCallback
        (sampleEnv { resp := some { statusCode := 400,
                                    body := Body.jsonObject [("access_token", JSONValue.string "A"),
                                                             ("refresh_token", JSONValue.string "R")] },
                     err := false })
        sampleCallback World.init = Result.ok () s ∧
      s.w.status = some 500 ∧
      s.w.location = some "http://localhost:8081/#error=invalid_token" ∧
      s.w.header.get "Location" = some "http://localhost:8081/#access_token=A&refresh_token=R" :=
  ⟨_, rfl, by decide⟩

/-- C4 (counterexample): a GET callback whose state `abc` equals the cookie
value, answered with status 200 and the tokens `é` and `R`: the response is a
303 redirect, but its `Location` is
`http://localhost:8081/#access_token=%c3%a9&refresh_token=R`, not the URL
with the token as it is. -/
theorem C4_non_ascii_token_escaped :
    sampleCallback.method = "GET" ∧
    (sampleCallback.cookie stateKey).map Cookie.value = some "abc" ∧
    sampleCallback.queryGet "state" = "abc" ∧
    (∀ req, (sampleEnv (tokenAnswer "é" "R")).roundTrip req =
      { resp := some { statusCode := 200,
                       body := Body.jsonObject [("access_token", JSONValue.string "é"),
                                                ("refresh_token", JSONValue.string "R")] },
        err := false }) ∧
    (handleCallback (sampleEnv (tokenAnswer "é" "R")) sampleCallback World.init).panicked = false ∧
    (handleCallback (sampleEnv (tokenAnswer "é" "R")) sampleCallback World.init).world.w.status =
      some 303 ∧
    (handleCallback (sampleEnv (tokenAnswer "é" "R")) sampleCallback World.init).world.w.location =
      some "http://localhost:8081/#access_token=%c3%a9&refresh_token=R" ∧
    (handleCallback (sampleEnv (tokenAnswer "é" "R")) sampleCallback World.init).world.w.location ≠
      some ("http://localhost:8081/#access_token=" ++ "é" ++ "&refresh_token=" ++ "R") := by
  refine ⟨by decide, by decide, by decide, fun _ => rfl, by decide, by decide, by decide,
    by decide⟩

/-- C4 (amended): a GET callback whose non-empty `state` equals the cookie
value, answered by the token endpoint with status 200 and a JSON object whose
`access_token` is the string `A` and whose `refresh_token` is the string `R`,
both of ASCII characters only, returns normally with a 303 redirect whose
location is exactly `http://localhost:8081/#access_token=A&refresh_token=R`. -/
theorem C4_token_redirect_ascii (env : Env) (r : Request) (c : Cookie)
    (fields : List (String × JSONValue)) (A R : String)
    (hget : r.method = "GET") (hcookie : r.cookie stateKey = some c)
    (hstate : r.queryGet "state" ≠ "") (hmatch : r.queryGet "state" = c.value)
    (hresp : env.roundTrip (tokenRequest (env.getenv "CLIENT_ID") (env.getenv "CLIENT_SECRET")
        ("code=" ++ r.queryGet "code" ++ "&redirect_uri=" ++ redirectURI ++
          "&grant_type=authorization_code")) =
      { resp := some { statusCode := 200, body := Body.jsonObject fields }, err := false })
    (haccess : mapIndex fields "access_token" = some (JSONValue.string A))
    (hrefresh : mapIndex fields "refresh_token" = some (JSONValue.string R))
    (hA : ∀ ch ∈ A.data, ch.toNat < 0x80) (hR : ∀ ch ∈ R.data, ch.toNat < 0x80) :
    ∃ s : World, handleCallback env r World.init = Result.ok () s ∧
      s.w.status = some 303 ∧
      s.w.location =
        some ("http://localhost:8081/#access_token=" ++ A ++ "&refresh_token=" ++ R) := by
  have hne : ¬ (c.value = "") := by rw [← hmatch]; exact hstate
  have h : handleCallback env r World.init =
      Redirect r ("http://localhost:8081/#access_token=" ++ A ++ "&refresh_token=" ++ R) 303
        { w := { header := { fields := [],
                             setCookie := [{ name := stateKey, value := "", path := "",
                                             expires := none, maxAge := -1 }] },
                 wrote := none, body := "" },
          sent := [tokenRequest (env.getenv "CLIENT_ID") (env.getenv "CLIENT_SECRET")
            ("code=" ++ r.queryGet "code" ++ "&redirect_uri=" ++ redirectURI ++
              "&grant_type=authorization_code")],
          stdout := [] } := by
    simp [handleCallback, hget, hcookie, bind, Handler.bind, deref, pure, hmatch, hne, hresp,
      haccess, hrefresh, clientDo, jsonUnmarshal, assertString, SetCookie, onWriter, World.init]
  rw [Redirect_get r hget] at h
  rotate_left
  · rfl
  · rfl
  refine ⟨_, h, ?_, ?_⟩
  · simp [ResponseWriter.status]
  · have hascii : ∀ ch ∈
        ("http://localhost:8081/#access_token=" ++ A ++ "&refresh_token=" ++ R).data,
        ch.toNat < 0x80 := by
      intro ch hch
      simp only [String.data_append, List.mem_append] at hch
      rcases hch with ((hch | hch) | hch) | hch
      · revert ch; decide
      · exact hA ch hch
      · revert ch; decide
      · exact hR ch hch
    simp [ResponseWriter.location, Header.set, Header.get, hexEscapeNonASCII_ascii _ hascii]

/-- C4 (amended) at the tokens `A` and `R`. -/
theorem C4_token_redirect_ascii_witness :
    ∃ s : World, handleCallback (sampleEnv (tokenAnswer "A" "R")) sampleCallback World.init =
        Result.ok () s ∧
      s.w.status = some 303 ∧
      s.w.location =
        some ("http://localhost:8081/#access_token=" ++ "A" ++ "&refresh_token=" ++ "R") :=
  C4_token_redirect_ascii (sampleEnv (tokenAnswer "A" "R")) sampleCallback
    { name := stateKey, value := "abc", path := "", expires := none, maxAge := 0 }
    [("access_token", JSONValue.string "A"), ("refresh_token", JSONValue.string "R")] "A" "R"
    (by decide) (by decide) (by decide) (by decide) rfl (by decide) (by decide)
    (by decide) (by decide)

/-! ## The refresh -/

/-- C7: a GET refresh answered by the token endpoint with status 200 and a
JSON object whose `access_token` is the string `B` returns normally; the body
written is exactly `{access_token:B}`, sent with status 200. -/
theorem C7_refresh_body (env : Env) (r : Request) (fields : List (String × JSONValue))
    (B : String) (hget : r.method = "GET")
    (hresp : env.roundTrip (tokenRequest (env.getenv "CLIENT_ID") (env.getenv "CLIENT_SECRET")
        ("grant_type=refresh_token&refresh_token=" ++ r.queryGet "refresh_token")) =
      { resp := some { statusCode := 200, body := Body.jsonObject fields }, err := false })
    (htoken : mapIndex fields "access_token" = some (JSONValue.string B)) :
    ∃ s : World, handleRefresh env r World.init = Result.ok () s ∧
      s.w.body = "\x7baccess_token:" ++ B ++ "\x7d" ∧
      s.w.status = some 200 := by
  have h : handleRefresh env r World.init = Result.ok ()
      { w := { header := { fields := [], setCookie := [] },
               wrote := some (200, { fields := [], setCookie := [] }),
               body := "" ++ ("\x7baccess_token:" ++ B ++ "\x7d") },
        sent := [tokenRequest (env.getenv "CLIENT_ID") (env.getenv "CLIENT_SECRET")
          ("grant_type=refresh_token&refresh_token=" ++ r.queryGet "refresh_token")],
        stdout := ["entered the refresh route", "new token on its way"] } := by
    simp [handleRefresh, hget, hresp, htoken, bind, Handler.bind, deref, pure, clientDo,
      jsonUnmarshal, assertString, Println, Write, WriteHeader, onWriter, World.init]
  refine ⟨_, h, ?_, ?_⟩
  · simp
  · simp [ResponseWriter.status]

/-- C7 at the token `B`. -/
theorem C7_refresh_body_witness :
    ∃ s : World, handleRefresh (sampleEnv (tokenAnswer "B" "R")) sampleRefresh World.init =
        Result.ok () s ∧
      s.w.body = "\x7baccess_token:" ++ "B" ++ "\x7d" ∧
      s.w.status = some 200 :=
  C7_refresh_body (sampleEnv (tokenAnswer "B" "R")) sampleRefresh
    [("access_token", JSONValue.string "B"), ("refresh_token", JSONValue.string "R")] "B"
    (by decide) rfl (by decide)

/-- C8 (the code on a failing input): when the transport fails, the refresh
handler skips the success branch and then evaluates `resp.Body` with a nil
`resp`: it ends in a nil pointer dereference, with nothing written. -/
theorem C8_refresh_transport_error_panics :
    handleRefresh (sampleEnv transportError) sampleRefresh World.init =
      Result.panic Panic.nilDereference
        { w := World.init.w,
          sent := [tokenRequest "id" "secret" "grant_type=refresh_token&refresh_token=rt"],
          stdout := ["entered the refresh route"] } := by
  decide

/-- On every GET refresh, a failed transport (no response, an error) ends in
the nil pointer dereference, with nothing written. -/
theorem handleRefresh_transport_error (env : Env) (r : Request) (hget : r.method = "GET")
    (hresp : env.roundTrip (tokenRequest (env.getenv "CLIENT_ID") (env.getenv "CLIENT_SECRET")
        ("grant_type=refresh_token&refresh_token=" ++ r.queryGet "refresh_token")) =
      { resp := none, err := true }) :
    handleRefresh env r World.init = Result.panic Panic.nilDereference
      { w := World.init.w,
        sent := [tokenRequest (env.getenv "CLIENT_ID") (env.getenv "CLIENT_SECRET")
          ("grant_type=refresh_token&refresh_token=" ++ r.queryGet "refresh_token")],
        stdout := ["entered the refresh route"] } := by
  simp [handleRefresh, hget, hresp, bind, Handler.bind, deref, pure, clientDo, Println,
    throwPanic, World.init]

/-- When the token endpoint answers with a status other than 200, the refresh
handler returns normally and has written nothing: the server completes an
empty response with status 200. -/
theorem handleRefresh_status_not_200 (env : Env) (r : Request) (resp : Response)
    (hget : r.method = "GET")
    (hresp : env.roundTrip (tokenRequest (env.getenv "CLIENT_ID") (env.getenv "CLIENT_SECRET")
        ("grant_type=refresh_token&refresh_token=" ++ r.queryGet "refresh_token")) =
      { resp := some resp, err := false })
    (hstatus : resp.statusCode ≠ 200) :
    ∃ s : World, handleRefresh env r World.init = Result.ok () s ∧
      s.w = World.init.w ∧
      (finishRequest s.w).status = some 200 ∧ (finishRequest s.w).body = "" := by
  have h : handleRefresh env r World.init = Result.ok ()
      { w := World.init.w,
        sent := [tokenRequest (env.getenv "CLIENT_ID") (env.getenv "CLIENT_SECRET")
          ("grant_type=refresh_token&refresh_token=" ++ r.queryGet "refresh_token")],
        stdout := ["entered the refresh route"] } := by
    simp [handleRefresh, hget, hresp, hstatus, bind, Handler.bind, deref, pure, clientDo,
      Println, World.init]
  exact ⟨_, h, rfl, rfl, rfl⟩

/-! ## Requests that are not GET -/

/-- C10: for each of the three handlers and every request whose method is
not GET, the handler returns normally with a redirect to
`http://localhost:8081`, status 403; no cookie is set, nothing is written to
the body, printed or sent to the provider, and the outcome is the same in
every environment (no draw of the random source is used). -/
theorem C10_not_get_forbidden (env env2 : Env) (r : Request) (hmethod : r.method ≠ "GET") :
    (isForbiddenRedirect (handleLogin env r World.init) ∧
      handleLogin env2 r World.init = handleLogin env r World.init) ∧
    (isForbiddenRedirect (handleCallback env r World.init) ∧
      handleCallback env2 r World.init = handleCallback env r World.init) ∧
    (isForbiddenRedirect (handleRefresh env r World.init) ∧
      handleRefresh env2 r World.init = handleRefresh env r World.init) := by
  have hR := Redirect_notGet r hmethod "http://localhost:8081" 403 World.init (by decide)
    (by decide)
  have hloc : hexEscapeNonASCII "http://localhost:8081" = "http://localhost:8081" := by decide
  have key : isForbiddenRedirect (Redirect r "http://localhost:8081" 403 World.init) := by
    refine ⟨_, hR, ?_⟩
    by_cases hh : r.method = "HEAD" <;>
    simp [hh, hloc, ResponseWriter.status, ResponseWriter.location, ResponseWriter.cookiesSent,
      Header.set, Header.get, World.init]
  have hLogin : ∀ e : Env, handleLogin e r World.init =
      Redirect r "http://localhost:8081" 403 World.init := by
    intro e
    simp [handleLogin, hmethod]
  have hCallback : ∀ e : Env, handleCallback e r World.init =
      Redirect r "http://localhost:8081" 403 World.init := by
    intro e
    simp [handleCallback, hmethod]
  have hRefresh : ∀ e : Env, handleRefresh e r World.init =
      Redirect r "http://localhost:8081" 403 World.init := by
    intro e
    simp [handleRefresh, hmethod]
  refine ⟨⟨?_, ?_⟩, ⟨?_, ?_⟩, ⟨?_, ?_⟩⟩
  · rw [hLogin env]; exact key
  · rw [hLogin env, hLogin env2]
  · rw [hCallback env]; exact key
  · rw [hCallback env, hCallback env2]
  · rw [hRefresh env]; exact key
  · rw [hRefresh env, hRefresh env2]

/-- C10 at a POST request that carries the state cookie. -/
theorem C10_not_get_forbidden_witness :
    (isForbiddenRedirect (handleLogin (sampleEnv transportError) samplePost World.init) ∧
      handleLogin (sampleEnv (tokenAnswer "A" "R")) samplePost World.init =
        handleLogin (sampleEnv transportError) samplePost World.init) ∧
    (isForbiddenRedirect (handleCallback (sampleEnv transportError) samplePost World.init) ∧
      handleCallback (sampleEnv (tokenAnswer "A" "R")) samplePost World.init =
        handleCallback (sampleEnv transportError) samplePost World.init) ∧
    (isForbiddenRedirect (handleRefresh (sampleEnv transportError) samplePost World.init) ∧
      handleRefresh (sampleEnv (tokenAnswer "A" "R")) samplePost World.init =
        handleRefresh (sampleEnv transportError) samplePost World.init) :=
  C10_not_get_forbidden (sampleEnv transportError) (sampleEnv (tokenAnswer "A" "R")) samplePost
    (by decide)

/-! ## The login -/

/-- Dropping up to the first `sep` of `a ++ sep :: b`, with no `sep` in `a`. -/
theorem dropWhile_ne_append (sep : Char) (a b : List Char) (h : sep ∉ a) :
    (a ++ sep :: b).dropWhile (fun c => c != sep) = sep :: b := by
  induction a with
  | nil => simp
  | cons x t ih =>
    have hx : x ≠ sep := fun e => h (e ▸ List.mem_cons_self x t)
    have ht : sep ∉ t := fun m => h (List.mem_cons_of_mem x m)
    simp [List.dropWhile_cons, hx, ih ht]

/-- Taking up to the first `sep` of `a ++ sep :: b`, with no `sep` in `a`. -/
theorem takeWhile_ne_append (sep : Char) (a b : List Char) (h : sep ∉ a) :
    (a ++ sep :: b).takeWhile (fun c => c != sep) = a := by
  induction a with
  | nil => simp
  | cons x t ih =>
    have hx : x ≠ sep := fun e => h (e ▸ List.mem_cons_self x t)
    have ht : sep ∉ t := fun m => h (List.mem_cons_of_mem x m)
    simp [List.takeWhile_cons, hx, ih ht]

/-- Taking up to the first `sep` of a list without `sep`. -/
theorem takeWhile_ne_self (sep : Char) (a : List Char) (h : sep ∉ a) :
    a.takeWhile (fun c => c != sep) = a := by
  induction a with
  | nil => simp
  | cons x t ih =>
    have hx : x ≠ sep := fun e => h (e ▸ List.mem_cons_self x t)
    have ht : sep ∉ t := fun m => h (List.mem_cons_of_mem x m)
    simp [List.takeWhile_cons, hx, ih ht]

/-- A list without `sep` is a single piece. -/
theorem splitChars_self (sep : Char) (a : List Char) (h : sep ∉ a) :
    splitChars sep a = [a] := by
  induction a with
  | nil => rfl
  | cons x t ih =>
    have hx : x ≠ sep := fun e => h (e ▸ List.mem_cons_self x t)
    have ht : sep ∉ t := fun m => h (List.mem_cons_of_mem x m)
    simp [splitChars, hx, ih ht]

/-- The first piece of `a ++ sep :: b`, with no `sep` in `a`, is `a`. -/
theorem splitChars_append (sep : Char) (a b : List Char) (h : sep ∉ a) :
    splitChars sep (a ++ sep :: b) = a :: splitChars sep b := by
  induction a with
  | nil => simp [splitChars]
  | cons x t ih =>
    have hx : x ≠ sep := fun e => h (e ▸ List.mem_cons_self x t)
    have ht : sep ∉ t := fun m => h (List.mem_cons_of_mem x m)
    simp [splitChars, hx, ih ht]

/-- A piece `k=v` with no `=` in `k` is cut into `k` and `v`. -/
theorem keyValue_append (k v : List Char) (h : '=' ∉ k) :
    keyValue (k ++ '=' :: v) = (String.mk k, String.mk v) := by
  simp [keyValue, takeWhile_ne_append '=' k v h, dropWhile_ne_append '=' k v h]

/-- An unreserved character is ASCII and none of `&`, `=`, `#`. -/
theorem isUnreserved_ascii (c : Char) (h : isUnreserved c) :
    c.toNat < 0x80 ∧ c ≠ '&' ∧ c ≠ '=' ∧ c ≠ '#' := by
  unfold isUnreserved at h
  refine ⟨by omega, ?_, ?_, ?_⟩ <;>
  · intro e
    subst e
    revert h
    decide

/-- The characters of `possible` are ASCII and none of `&`, `=`, `#`. -/
theorem possible_ascii : ∀ c ∈ possible.data, c.toNat < 0x80 ∧ c ≠ '&' ∧ c ≠ '=' ∧ c ≠ '#' := by
  decide

/-- The query parameters written in the URL `handleLogin` redirects to. -/
theorem loginURL_queryParameters (clientID state : String)
    (hid : ∀ c ∈ clientID.data, isUnreserved c)
    (hstate : ∀ c ∈ state.data, c ∈ possible.data) :
    queryParameters ("https://accounts.spotify.com/authorize?" ++
        ("response_type=code&client_id=" ++ clientID ++ "&scope=" ++ scope ++
          "&redirect_uri=" ++ redirectURI ++ "&state=" ++ state)) =
      [("response_type", "code"), ("client_id", clientID), ("scope", scope),
       ("redirect_uri", redirectURI), ("state", state)] := by
  have hd : ("https://accounts.spotify.com/authorize?" ++
        ("response_type=code&client_id=" ++ clientID ++ "&scope=" ++ scope ++
          "&redirect_uri=" ++ redirectURI ++ "&state=" ++ state)).data =
      "https://accounts.spotify.com/authorize".data ++ '?' ::
        (("response_type".data ++ '=' :: "code".data) ++ '&' ::
          (("client_id".data ++ '=' :: clientID.data) ++ '&' ::
            (("scope".data ++ '=' :: scope.data) ++ '&' ::
              (("redirect_uri".data ++ '=' :: redirectURI.data) ++ '&' ::
                ("state".data ++ '=' :: state.data))))) := by
    simp only [String.data_append]
    simp
  have hidc : ∀ c ∈ clientID.data, c ≠ '&' ∧ c ≠ '#' := fun c hc =>
    ⟨(isUnreserved_ascii c (hid c hc)).2.1, (isUnreserved_ascii c (hid c hc)).2.2.2⟩
  have hstc : ∀ c ∈ state.data, c ≠ '&' ∧ c ≠ '#' := fun c hc =>
    ⟨(possible_ascii c (hstate c hc)).2.1, (possible_ascii c (hstate c hc)).2.2.2⟩
  have n1 : '?' ∉ "https://accounts.spotify.com/authorize".data := by decide
  have a1 : '&' ∉ "response_type".data ++ '=' :: "code".data := by decide
  have a2 : '&' ∉ "client_id".data ++ '=' :: clientID.data := by
    intro hm
    rcases List.mem_append.mp hm with h | h
    · revert h; decide
    · rcases List.mem_cons.mp h with h | h
      · revert h; decide
      · exact (hidc _ h).1 rfl
  have a3 : '&' ∉ "scope".data ++ '=' :: scope.data := by decide
  have a4 : '&' ∉ "redirect_uri".data ++ '=' :: redirectURI.data := by decide
  have a5 : '&' ∉ "state".data ++ '=' :: state.data := by
    intro hm
    rcases List.mem_append.mp hm with h | h
    · revert h; decide
    · rcases List.mem_cons.mp h with h | h
      · revert h; decide
      · exact (hstc _ h).1 rfl
  have hash : '#' ∉ (("response_type".data ++ '=' :: "code".data) ++ '&' ::
          (("client_id".data ++ '=' :: clientID.data) ++ '&' ::
            (("scope".data ++ '=' :: scope.data) ++ '&' ::
              (("redirect_uri".data ++ '=' :: redirectURI.data) ++ '&' ::
                ("state".data ++ '=' :: state.data))))) := by
    intro hm
    simp only [List.mem_append, List.mem_cons] at hm
    have c1 : '#' ∉ clientID.data := fun h => (hidc _ h).2 rfl
    have c2 : '#' ∉ state.data := fun h => (hstc _ h).2 rfl
    have k1 : '#' ∉ "response_type".data := by decide
    have k2 : '#' ∉ "code".data := by decide
    have k3 : '#' ∉ "client_id".data := by decide
    have k4 : '#' ∉ "scope".data := by decide
    have k5 : '#' ∉ scope.data := by decide
    have k6 : '#' ∉ "redirect_uri".data := by decide
    have k7 : '#' ∉ redirectURI.data := by decide
    have k8 : '#' ∉ "state".data := by decide
    have q1 : ¬ ('#' = '=') := by decide
    have q2 : ¬ ('#' = '&') := by decide
    tauto
  unfold queryParameters rawQuery
  rw [hd, dropWhile_ne_append '?' _ _ n1, List.drop_one, List.tail_cons,
    takeWhile_ne_self '#' _ hash,
    splitChars_append '&' _ _ a1, splitChars_append '&' _ _ a2, splitChars_append '&' _ _ a3,
    splitChars_append '&' _ _ a4, splitChars_self '&' _ a5]
  simp only [List.map_cons, List.map_nil]
  rw [keyValue_append _ _ (by decide), keyValue_append _ _ (by decide),
    keyValue_append _ _ (by decide), keyValue_append _ _ (by decide),
    keyValue_append _ _ (by decide)]

/-- C6: a GET login, with a client id of unreserved URL characters, returns
normally; the response sets exactly one cookie, named `spotify_auth_state`
with path `/`, whose value is the 16-character token just generated, and is a
302 redirect to `https://accounts.spotify.com/authorize?` followed by the query
`response_type=code`, the client id, the fixed scope, the fixed redirect URI
and a `state` parameter whose value is the value of that cookie. -/
theorem C6_login_cookie_and_redirect (env : Env) (r : Request) (hget : r.method = "GET")
    (hid : ∀ c ∈ (env.getenv "CLIENT_ID").data, isUnreserved c) :
    ∃ (state : String) (s : World),
      generateRandomString env.rand 16 = some state ∧ state.length = 16 ∧
      handleLogin env r World.init = Result.ok () s ∧
      s.w.cookiesSent = [{ name := "spotify_auth_state", value := state, path := "/",
                           expires := some (env.now + 365 * 24 * 3600000000000), maxAge := 0 }] ∧
      s.w.status = some 302 ∧
      s.w.location = some ("https://accounts.spotify.com/authorize?" ++
        ("response_type=code&client_id=" ++ env.getenv "CLIENT_ID" ++ "&scope=" ++ scope ++
          "&redirect_uri=" ++ redirectURI ++ "&state=" ++ state)) ∧
      queryParameters ("https://accounts.spotify.com/authorize?" ++
        ("response_type=code&client_id=" ++ env.getenv "CLIENT_ID" ++ "&scope=" ++ scope ++
          "&redirect_uri=" ++ redirectURI ++ "&state=" ++ state)) =
        [("response_type", "code"), ("client_id", env.getenv "CLIENT_ID"), ("scope", scope),
         ("redirect_uri", redirectURI), ("state", state)] := by
  obtain ⟨state, hgen, hlen, hmem⟩ := generateRandomString_spec env.rand 16
  have h : handleLogin env r World.init =
      Redirect r ("https://accounts.spotify.com/authorize?" ++
        ("response_type=code&client_id=" ++ env.getenv "CLIENT_ID" ++ "&scope=" ++ scope ++
          "&redirect_uri=" ++ redirectURI ++ "&state=" ++ state)) 302
        { w := { header :=
                   { fields := [("Access-Control-Allow-Origin", "*")],
                     setCookie :=
                       [{ name := stateKey, value := state, path := "/",
                          expires := some (env.now + 365 * 24 * 3600000000000), maxAge := 0 }] },
                 wrote := none, body := "" },
          sent := [], stdout := ["entered login route"] } := by
    simp [handleLogin, hget, hgen, bind, Handler.bind, pure, Println, SetCookie, enableCORS,
      headerSet, onWriter, Header.set, World.init]
  rw [Redirect_get r hget] at h
  rotate_left
  · rfl
  · rfl
  have hascii : ∀ ch ∈ ("https://accounts.spotify.com/authorize?" ++
        ("response_type=code&client_id=" ++ env.getenv "CLIENT_ID" ++ "&scope=" ++ scope ++
          "&redirect_uri=" ++ redirectURI ++ "&state=" ++ state)).data, ch.toNat < 0x80 := by
    intro ch hch
    simp only [String.data_append, List.mem_append] at hch
    rcases hch with hch | (((((((hch | hch) | hch) | hch) | hch) | hch) | hch) | hch)
    · revert ch; decide
    · revert ch; decide
    · exact (isUnreserved_ascii ch (hid ch hch)).1
    · revert ch; decide
    · revert ch; decide
    · revert ch; decide
    · revert ch; decide
    · revert ch; decide
    · exact (possible_ascii ch (hmem ch hch)).1
  refine ⟨state, _, hgen, hlen, h, ?_, ?_, ?_, loginURL_queryParameters _ _ hid hmem⟩
  · simp [ResponseWriter.cookiesSent, Header.set, stateKey]
  · simp [ResponseWriter.status]
  · simp [ResponseWriter.location, Header.set, Header.get, hexEscapeNonASCII_ascii _ hascii]

/-- C6 at a GET request with the client id `id`. -/
theorem C6_login_cookie_and_redirect_witness :
    ∃ (state : String) (s : World),
      generateRandomString (sampleEnv transportError).rand 16 = some state ∧ state.length = 16 ∧
      handleLogin (sampleEnv transportError) sampleRefresh World.init = Result.ok () s ∧
      s.w.cookiesSent = [{ name := "spotify_auth_state", value := state, path := "/",
                           expires := some ((sampleEnv transportError).now +
                             365 * 24 * 3600000000000), maxAge := 0 }] ∧
      s.w.status = some 302 ∧
      s.w.location = some ("https://accounts.spotify.com/authorize?" ++
        ("response_type=code&client_id=" ++ (sampleEnv transportError).getenv "CLIENT_ID" ++
          "&scope=" ++ scope ++ "&redirect_uri=" ++ redirectURI ++ "&state=" ++ state)) ∧
      queryParameters ("https://accounts.spotify.com/authorize?" ++
        ("response_type=code&client_id=" ++ (sampleEnv transportError).getenv "CLIENT_ID" ++
          "&scope=" ++ scope ++ "&redirect_uri=" ++ redirectURI ++ "&state=" ++ state)) =
        [("response_type", "code"), ("client_id", (sampleEnv transportError).getenv "CLIENT_ID"),
         ("scope", scope), ("redirect_uri", redirectURI), ("state", state)] :=
  C6_login_cookie_and_redirect (sampleEnv transportError) sampleRefresh (by decide) (by decide)

/-- The login response for the draws of `sampleRand`: the cookie value and
the `state` parameter are both `Gd0Nk7UrEbyLi5Ro`. -/
theorem handleLogin_sample :
    (handleLogin (sampleEnv transportError) sampleRefresh World.init).world.w.cookiesSent =
      [{ name := "spotify_auth_state", value := "Gd0Nk7UrEbyLi5Ro", path := "/",
         expires := some 31536000000000000, maxAge := 0 }] ∧
    (handleLogin (sampleEnv transportError) sampleRefresh World.init).world.w.location =
      some ("https://accounts.spotify.com/authorize?response_type=code&client_id=id&scope=" ++
        scope ++ "&redirect_uri=http://localhost:8080/callback&state=Gd0Nk7UrEbyLi5Ro") := by
  decide!

end Tindify
